import Mathlib

/-
Verification of the job lifecycle and ephemeral-artifact management of the
Ytdlcore service (src/app.py). The Flask request marshaling and the yt-dlp
collaborator are abstracted: each request handler becomes a pure function
over an environment that records the outcomes of the collaborator calls and
the state of the downloads directory. Timestamps are integers (seconds);
the downloads dict is an association list from job id to job record.
-/

namespace Ytdlcore

/-- Cleanup cadence in seconds, CLEANUP_INTERVAL in src/app.py line 16. -/
def CLEANUP_INTERVAL : Int := 60

/-- Expiry window in seconds, FILE_EXPIRY_TIME in src/app.py line 17. -/
def FILE_EXPIRY_TIME : Int := 300

/-- One entry of the in-memory downloads dict, as created at src/app.py
    lines 278-284: status, creation timestamp, source url, artifact
    filename (absent until completed) and error detail (absent unless the
    job failed). The in-progress state of the specification is spelled
    "downloading" in the code. -/
structure JobRecord where
  status : String
  timestamp : Int
  url : String
  filename : Option String
  error : Option String
deriving DecidableEq, Repr

/-- The downloads dict: an association list from job id to job record. -/
abbrev Registry := List (String × JobRecord)

/-- Dict lookup: the first binding for the key, if any. -/
def regGet (d : Registry) (k : String) : Option JobRecord :=
  (d.find? (fun p => p.1 == k)).map Prod.snd

/-- Dict assignment: overwrite the bindings of an existing key, otherwise
    append a new binding. -/
def regSet (d : Registry) (k : String) (v : JobRecord) : Registry :=
  if d.any (fun p => p.1 == k) then d.map (fun p => if p.1 == k then (k, v) else p)
  else d ++ [(k, v)]

/-- Mutation of one field of the record stored at a key, as in the
    statements of the form downloads[id].field = value. -/
def regUpdate (d : Registry) (k : String) (f : JobRecord → JobRecord) : Registry :=
  d.map (fun p => if p.1 == k then (p.1, f p.2) else p)

/-- Dict pop with a default: remove every binding of the key; removing an
    absent key is a no-op, matching downloads.pop(id, None). -/
def regPop (d : Registry) (k : String) : Registry :=
  d.filter (fun p => p.1 != k)

/-- One file of the downloads directory as the scan sees it: its name,
    whether it is a regular file, and its creation time. -/
structure DirEntry where
  name : String
  is_file : Bool
  ctime : Int
deriving DecidableEq, Repr

/-- The metadata returned by the collaborator when extract_info succeeds;
    only the title is consumed by the /download handler. -/
structure VideoMeta where
  title : Option String
deriving DecidableEq, Repr

/-- The outcomes of one /download request environment: the wall-clock time
    at record creation, the wall-clock time during the resolution scan, the
    result of the metadata call, the result of the download call, and the
    downloads directory listing observed by the resolution scan. -/
structure Env where
  now : Int
  nowResolve : Int
  extractResult : Except String VideoMeta
  downloadResult : Except String Unit
  dirListing : List DirEntry

/-- The JSON response of the /download handler: the HTTP code plus the
    fields the handler emits on its several paths. -/
structure DlResponse where
  code : Nat
  error : Option String := none
  download_id : Option String := none
  status : Option String := none
  filename : Option String := none
  download_url : Option String := none
  title : Option String := none
deriving DecidableEq, Repr

/-- A registry write performed by the /download handler, recorded so that
    the state-machine properties can speak about the whole trace. -/
inductive RegEvent where
  | insert (id : String) (r : JobRecord)
  | setStatus (id : String) (s : String)
  | setFilename (id : String) (v : String)
  | setError (id : String) (v : String)
deriving DecidableEq, Repr

/-- The initial record inserted at request submission, src/app.py
    lines 278-284. -/
def initRecord (now : Int) (url : String) : JobRecord :=
  { status := "downloading", timestamp := now, url := url, filename := none,
    error := none }

/-- Filename sanitization, src/app.py line 296: keep alphanumeric
    characters, space, hyphen and underscore, then strip trailing
    whitespace. -/
def sanitize_title (title : String) : String :=
  (String.mk (title.toList.filter
    (fun c => c.isAlphanum || c == ' ' || c == '-' || c == '_'))).trimRight

/-- The list comprehension at src/app.py line 307: the record dicts of the
    downloads registry whose filename field is truthy. Note that the source
    collects the record dicts themselves, not their filename strings. -/
def claimed_records (downloads : Registry) : List JobRecord :=
  (downloads.map Prod.snd).filter (fun f => f.filename.getD "" != "")

/-- Python equality between a candidate filename string and a whole
    job-record dict, as the membership test at src/app.py line 307 actually
    performs it: values of distinct types compare unequal in Python, so
    this is constantly false. -/
def py_str_eq_record (_ : String) (_ : JobRecord) : Bool := false

/-- The resolution scan, src/app.py lines 304-312: the first directory
    entry that is a regular file, is not excluded by the membership test
    written in the source, and whose creation time is within 30 seconds of
    the current time. -/
def find_downloaded_file (listing : List DirEntry) (downloads : Registry)
    (now : Int) : Option String :=
  (listing.find? (fun e =>
      e.is_file
        && !((claimed_records downloads).any (fun f => py_str_eq_record e.name f))
        && decide (now - e.ctime < 30))).map DirEntry.name

/-- The shared failure path of the /download handler, src/app.py
    lines 330-333: mark the record as errored, store the message verbatim,
    and answer 500 with the message prefixed by a fixed phrase. -/
def failDownload (download_id : String) (msg : String) (d : Registry)
    (ev : List RegEvent) : DlResponse × Registry × List RegEvent :=
  let d2 := regUpdate d download_id (fun r => { r with status := "error" })
  let d3 := regUpdate d2 download_id (fun r => { r with error := some msg })
  ({ code := 500, error := some ("Download failed: " ++ msg) }, d3,
    ev ++ [RegEvent.setStatus download_id "error", RegEvent.setError download_id msg])

/-- The /download handler, src/app.py lines 264-333: validate the url,
    insert the in-progress record, run the metadata call and the download
    call of the collaborator, resolve the produced artifact by the
    directory scan, and transition the record to completed or error. The
    expected filename derived from the sanitized title is computed by the
    source but never used by the resolution. -/
def download_video (url : Option String) (quality format_type : String)
    (download_id : String) (env : Env) (downloads : Registry) :
    DlResponse × Registry × List RegEvent :=
  if url.getD "" == "" then
    ({ code := 400, error := some "URL parameter is required" }, downloads, [])
  else
    let u := url.getD ""
    let rec0 := initRecord env.now u
    let d1 := regSet downloads download_id rec0
    let ev1 : List RegEvent := [RegEvent.insert download_id rec0]
    match env.extractResult with
    | Except.error msg => failDownload download_id msg d1 ev1
    | Except.ok info =>
      let title := info.title.getD "video"
      let safe_title := sanitize_title title
      let _expected_filename := safe_title ++ "." ++ format_type
      match env.downloadResult with
      | Except.error msg => failDownload download_id msg d1 ev1
      | Except.ok _ =>
        match find_downloaded_file env.dirListing d1 env.nowResolve with
        | some f =>
          let d2 := regUpdate d1 download_id (fun r => { r with status := "completed" })
          let d3 := regUpdate d2 download_id (fun r => { r with filename := some f })
          ({ code := 200, download_id := some download_id,
             status := some "completed", filename := some f,
             download_url := some ("/file/" ++ download_id),
             title := some title }, d3,
            ev1 ++ [RegEvent.setStatus download_id "completed",
                    RegEvent.setFilename download_id f])
        | none =>
          let d2 := regUpdate d1 download_id (fun r => { r with status := "error" })
          let d3 := regUpdate d2 download_id
            (fun r => { r with error := some "Downloaded file not found" })
          ({ code := 500, error := some "Downloaded file not found" }, d3,
            ev1 ++ [RegEvent.setStatus download_id "error",
                    RegEvent.setError download_id "Downloaded file not found"])

/-- The registry half of one cleanup cycle, src/app.py lines 147-154:
    collect the ids of the records whose age strictly exceeds the expiry
    window, then pop each collected id. -/
def cleanup_downloads (downloads : Registry) (current_time : Int) : Registry :=
  let expired_downloads :=
    (downloads.filter
      (fun p => decide (current_time - p.2.timestamp > FILE_EXPIRY_TIME))).map Prod.fst
  expired_downloads.foldl (fun d i => regPop d i) downloads

/-- One full reclamation cycle, src/app.py lines 128-159: delete the
    expired regular files, skipping the files whose removal fails, then
    drop the expired job records. The remove_ok oracle tells which file
    removals succeed. -/
def cleanup_cycle (listing : List DirEntry) (downloads : Registry)
    (current_time : Int) (remove_ok : String → Bool) :
    List DirEntry × Registry :=
  let files_to_remove := listing.filter
    (fun e => e.is_file && decide (current_time - e.ctime > FILE_EXPIRY_TIME))
  let remaining := listing.filter
    (fun e => !(files_to_remove.contains e && remove_ok e.name))
  (remaining, cleanup_downloads downloads current_time)

/-- The sequence of status values written for a given job id by a trace of
    registry events: the status of an inserted record followed by every
    later status assignment. -/
def statusHistory (events : List RegEvent) (id : String) : List String :=
  events.filterMap (fun e =>
    match e with
    | RegEvent.insert i r => if i == id then some r.status else none
    | RegEvent.setStatus i s => if i == id then some s else none
    | _ => none)

/-- The retry sleep functions of the collaborator configuration,
    src/app.py lines 96-101: one closure per failure category. -/
inductive RetryCategory where
  | http
  | fragment
  | file_access
  | extractor
deriving DecidableEq, Repr

/-- The four closures of the retry_sleep_functions entry of the options
    dict, src/app.py lines 96-101. -/
def retry_sleep_functions : RetryCategory → Nat → Nat
  | RetryCategory.http, n => min (4 ^ n) 60
  | RetryCategory.fragment, n => min (4 ^ n) 60
  | RetryCategory.file_access, n => min (4 ^ n) 60
  | RetryCategory.extractor, n => min (4 ^ n) 60

/-- One format dict of the collaborator metadata, as read by the /info
    handler at src/app.py lines 250-255. -/
structure PyFormat where
  format_id : Option String
  ext : Option String
  format_note : Option String
  filesize : Option Int
deriving DecidableEq, Repr

/-- The collaborator metadata consumed by the /info handler, src/app.py
    lines 240-257; every field may be absent. -/
structure InfoDict where
  title : Option String
  duration : Option Int
  uploader : Option String
  upload_date : Option String
  view_count : Option Int
  like_count : Option Int
  description : Option String
  thumbnail : Option String
  formats : List PyFormat
deriving DecidableEq, Repr

/-- One format descriptor of the /info response, src/app.py
    lines 250-255. -/
structure OutFormat where
  format_id : Option String
  ext : Option String
  quality : Option String
  filesize : Option Int
deriving DecidableEq, Repr

/-- The body of the /info response, src/app.py lines 240-257. -/
structure VideoInfoOut where
  title : Option String
  duration : Option Int
  uploader : Option String
  upload_date : Option String
  view_count : Option Int
  like_count : Option Int
  description : String
  thumbnail : Option String
  formats : List OutFormat
deriving DecidableEq, Repr

/-- Python truthiness of an optional string: present and non-empty. -/
def py_truthy_str (d : Option String) : Bool :=
  match d with
  | some s => s != ""
  | none => false

/-- The /info response construction, src/app.py lines 240-257: copy the
    scalar fields, truncate the description to its first 500 characters and
    append an ellipsis when the description is truthy, and keep the first
    10 format dicts projected to four fields. -/
def build_video_info (info : InfoDict) : VideoInfoOut :=
  { title := info.title
    duration := info.duration
    uploader := info.uploader
    upload_date := info.upload_date
    view_count := info.view_count
    like_count := info.like_count
    description :=
      if py_truthy_str info.description then
        (info.description.getD "").take 500 ++ "..."
      else ""
    thumbnail := info.thumbnail
    formats := (info.formats.take 10).map (fun f =>
      { format_id := f.format_id, ext := f.ext, quality := f.format_note,
        filesize := f.filesize }) }

/-- The description rule as the specification states it: the first 500
    characters of the source description with an ellipsis appended when a
    description is present, where presence follows Python truthiness (an
    absent or empty description gives the empty string). -/
def description_spec (d : Option String) : String :=
  match d with
  | some s => if s == "" then "" else s.take 500 ++ "..."
  | none => ""

/-- The response of the cookie endpoints: an HTTP code with an optional
    error or success message. -/
structure SimpleResponse where
  code : Nat
  error : Option String := none
  message : Option String := none
deriving DecidableEq, Repr

/-- parse_cookie_txt, src/app.py lines 48-57: overwrite the cookie file
    with the given content and report success; a failed write leaves the
    previous content and reports failure. The write_ok oracle tells whether
    the write succeeds. -/
def parse_cookie_txt (cookie_content : String) (write_ok : Bool)
    (cookie_file : Option String) : Bool × Option String :=
  if write_ok then (true, some cookie_content) else (false, cookie_file)

/-- The /set-cookies handler, src/app.py lines 207-223, on a JSON object
    body: read the cookies field with an empty default, reject a falsy
    value with 400 before any write, otherwise write the cookie file. -/
def set_cookies (data_cookies : Option String) (write_ok : Bool)
    (cookie_file : Option String) : SimpleResponse × Option String :=
  let cookie_content := data_cookies.getD ""
  if cookie_content == "" then
    ({ code := 400, error := some "No cookie content provided" }, cookie_file)
  else
    let res := parse_cookie_txt cookie_content write_ok cookie_file
    if res.1 then
      ({ code := 200, message := some "Cookies set successfully" }, res.2)
    else
      ({ code := 400, error := some "Failed to parse cookies" }, res.2)

/-- Concrete environment in which the metadata call raises an exception
    with the message boom. -/
def envBoom : Env :=
  { now := 5, nowResolve := 5, extractResult := Except.error "boom",
    downloadResult := Except.ok (), dirListing := [] }

/-- Concrete environment in which the metadata call raises an exception
    whose message is the empty string. -/
def envEmptyMsg : Env :=
  { now := 0, nowResolve := 0, extractResult := Except.error "",
    downloadResult := Except.ok (), dirListing := [] }

/-- Concrete environment in which both collaborator calls succeed but the
    downloads directory holds no file at all. -/
def envNoFile : Env :=
  { now := 0, nowResolve := 0,
    extractResult := Except.ok { title := some "T" },
    downloadResult := Except.ok (), dirListing := [] }

/-- Concrete environment in which both collaborator calls succeed and the
    directory holds one fresh regular file named T.mp4. -/
def envOneFile : Env :=
  { now := 0, nowResolve := 10,
    extractResult := Except.ok { title := some "T" },
    downloadResult := Except.ok (),
    dirListing := [{ name := "T.mp4", is_file := true, ctime := 0 }] }

/-- Concrete environment of a second download while the only fresh file in
    the directory is the one already claimed by an earlier job. -/
def envClaimed : Env :=
  { now := 100, nowResolve := 110,
    extractResult := Except.ok { title := some "Video" },
    downloadResult := Except.ok (),
    dirListing := [{ name := "Video.mp4", is_file := true, ctime := 100 }] }

/-- A completed earlier job that already claimed the file Video.mp4. -/
def priorJob : JobRecord :=
  { status := "completed", timestamp := 0, url := "u0",
    filename := some "Video.mp4", error := none }

/-- The completed record produced by a run of the handler in envOneFile. -/
def jobW4 : JobRecord :=
  { status := "completed", timestamp := 0, url := "u",
    filename := some "T.mp4", error := none }

/-- An expired record used to exercise the reclamation cycle. -/
def jobW5 : JobRecord :=
  { status := "downloading", timestamp := 0, url := "u5",
    filename := none, error := none }

/-- Looking a key up after a fresh insertion finds the inserted record. -/
theorem regGet_regSet_fresh (d : Registry) (k : String) (v : JobRecord)
    (h : regGet d k = none) :
    regGet (regSet d k v) k = some v := by
  have hfind : d.find? (fun p => p.1 == k) = none := by
    unfold regGet at h
    cases hf : d.find? (fun p => p.1 == k) with
    | none => rfl
    | some p => rw [hf] at h; simp at h
  have hany : (d.any (fun p => p.1 == k)) = false := by
    rw [List.any_eq_false]
    intro p hp
    have := List.find?_eq_none.mp hfind p hp
    simpa using this
  unfold regSet
  rw [hany]
  simp only [Bool.false_eq_true, if_false]
  unfold regGet
  rw [List.find?_append, hfind]
  simp [List.find?]

/-- Looking a key up after a field mutation of that key sees the mutated
    record. -/
theorem regGet_regUpdate (d : Registry) (k : String) (f : JobRecord → JobRecord) :
    regGet (regUpdate d k f) k = (regGet d k).map f := by
  unfold regGet regUpdate
  induction d with
  | nil => rfl
  | cons a t ih =>
    simp only [List.map_cons]
    by_cases h : (a.1 == k) = true
    · have h2 : ((if (a.1 == k) = true then (a.1, f a.2) else a).1 == k) = true := by
        rw [if_pos h]; exact h
      rw [@List.find?_cons_of_pos ((String × JobRecord)) (fun p => p.1 == k) _ _ h2,
        @List.find?_cons_of_pos ((String × JobRecord)) (fun p => p.1 == k) _ _ h]
      have h3 : a.1 = k := by simpa using h
      simp [h3]
    · have h2 : ¬((if (a.1 == k) = true then (a.1, f a.2) else a).1 == k) = true := by
        rw [if_neg h]; exact h
      rw [@List.find?_cons_of_neg ((String × JobRecord)) (fun p => p.1 == k) _ _ h2,
        @List.find?_cons_of_neg ((String × JobRecord)) (fun p => p.1 == k) _ _ h]
      exact ih

/-- The record seen after the insert-then-two-mutations pattern that every
    terminal path of the /download handler performs on a fresh id. -/
theorem regGet_two_updates (d : Registry) (k : String) (v : JobRecord)
    (f g : JobRecord → JobRecord) (h : regGet d k = none) :
    regGet (regUpdate (regUpdate (regSet d k v) k f) k g) k = some (g (f v)) := by
  rw [regGet_regUpdate, regGet_regUpdate, regGet_regSet_fresh _ _ _ h]
  rfl

/-- Every binding surviving the fold of pops was in the initial registry. -/
theorem mem_foldl_regPop (l : List String) (d0 : Registry) (x : String × JobRecord)
    (hx : x ∈ l.foldl (fun d i => regPop d i) d0) : x ∈ d0 := by
  induction l generalizing d0 with
  | nil => simpa using hx
  | cons j t ih =>
    rw [List.foldl_cons] at hx
    exact (List.mem_filter.mp (ih (regPop d0 j) hx)).1

/-- After popping every id of a list, no surviving binding carries an id of
    that list. -/
theorem foldl_regPop_removes (l : List String) (d0 : Registry) (i : String)
    (hi : i ∈ l) (x : String × JobRecord)
    (hx : x ∈ l.foldl (fun d j => regPop d j) d0) : x.1 ≠ i := by
  induction l generalizing d0 with
  | nil => cases hi
  | cons j t ih =>
    rw [List.foldl_cons] at hx
    by_cases hj : j = i
    · subst hj
      have hx0 : x ∈ regPop d0 j := mem_foldl_regPop t (regPop d0 j) x hx
      have hpred := (List.mem_filter.mp hx0).2
      simpa using hpred
    · rcases List.mem_cons.mp hi with h | h
      · exact absurd h.symm hj
      · exact ih (regPop d0 j) h hx

/-- C7: a /download request without a url query parameter is answered with
    HTTP 400 and the fixed error message, the registry is returned
    unchanged, and no registry write event is emitted, so no job is
    created. -/
theorem c7_missing_url_no_job_created (quality format_type download_id : String)
    (env : Env) (downloads : Registry) :
    download_video none quality format_type download_id env downloads =
      ({ code := 400, error := some "URL parameter is required" }, downloads, []) :=
  rfl

/-- C8: each of the four retry sleep closures of the collaborator
    configuration yields, for every retry count n, exactly the minimum of
    4 to the n and 60 seconds: exponential with base 4, capped at 60. -/
theorem c8_retry_backoff_exponential_capped (c : RetryCategory) (n : Nat) :
    retry_sleep_functions c n = min (4 ^ n) 60 := by
  cases c <;> rfl

/-- C9: the /info response keeps at most 10 format descriptors, each
    projected to id, extension, quality note and filesize from the first
    10 source formats, and its description field follows the truncation
    rule of the specification: the first 500 characters with an ellipsis
    appended when a description is present, the empty string otherwise. -/
theorem c9_info_formats_and_description (info : InfoDict) :
    (build_video_info info).formats.length ≤ 10
    ∧ (build_video_info info).description = description_spec info.description
    ∧ (build_video_info info).formats = (info.formats.take 10).map (fun f =>
        { format_id := f.format_id, ext := f.ext, quality := f.format_note,
          filesize := f.filesize }) := by
  refine ⟨?_, ?_, rfl⟩
  · simp only [build_video_info, List.length_map, List.length_take]
    exact min_le_left _ _
  · cases hd : info.description with
    | none => simp [build_video_info, description_spec, py_truthy_str, hd]
    | some s =>
      by_cases hs : (s == "") = true
      · have hs2 : s = "" := by simpa using hs
        subst hs2
        simp [build_video_info, description_spec, py_truthy_str, hd]
      · have hs2 : s ≠ "" := by simpa using hs
        simp [build_video_info, description_spec, py_truthy_str, hd, hs2]

/-- C10: a /set-cookies request whose JSON body lacks a cookies field or
    carries an empty cookies string is answered with HTTP 400 and the
    cookie file is left unchanged: the write path is never reached. -/
theorem c10_set_cookies_rejects_empty (data_cookies : Option String)
    (write_ok : Bool) (cookie_file : Option String)
    (h : data_cookies = none ∨ data_cookies = some "") :
    (set_cookies data_cookies write_ok cookie_file).1.code = 400
    ∧ (set_cookies data_cookies write_ok cookie_file).2 = cookie_file := by
  rcases h with h | h
  · subst h; exact ⟨rfl, rfl⟩
  · subst h; exact ⟨rfl, rfl⟩

/-- C10 witness: an empty cookies string is rejected with 400 and the
    previous cookie file content survives. -/
theorem c10_set_cookies_rejects_empty_witness :
    (set_cookies (some "") true (some "old")).1.code = 400
    ∧ (set_cookies (some "") true (some "old")).2 = some "old" :=
  c10_set_cookies_rejects_empty (some "") true (some "old") (Or.inr rfl)

/-- C5: in every reclamation cycle, every job record whose age strictly
    exceeds the expiry window of 300 seconds is removed from the registry,
    for an arbitrary record (any status, any artifact filename) and an
    arbitrary state of the artifact store (any listing, any removal
    outcomes). -/
theorem c5_expired_record_removed (listing : List DirEntry)
    (remove_ok : String → Bool) (downloads : Registry) (current_time : Int)
    (id : String) (r : JobRecord)
    (hget : regGet downloads id = some r)
    (hexp : current_time - r.timestamp > FILE_EXPIRY_TIME) :
    regGet (cleanup_cycle listing downloads current_time remove_ok).2 id = none := by
  obtain ⟨p, hp, hps⟩ : ∃ p, downloads.find? (fun q => q.1 == id) = some p ∧ p.2 = r := by
    unfold regGet at hget
    cases hf : downloads.find? (fun q => q.1 == id) with
    | none => rw [hf] at hget; simp at hget
    | some p => rw [hf] at hget; exact ⟨p, rfl, by simpa using hget⟩
  have hpmem : p ∈ downloads := List.mem_of_find?_eq_some hp
  have hpkey : p.1 = id := by simpa using List.find?_some hp
  have hpexp : (decide (current_time - p.2.timestamp > FILE_EXPIRY_TIME)) = true := by
    rw [hps]; exact decide_eq_true hexp
  have hidmem : id ∈ (downloads.filter
      (fun q => decide (current_time - q.2.timestamp > FILE_EXPIRY_TIME))).map
      Prod.fst := by
    rw [← hpkey]
    exact List.mem_map_of_mem Prod.fst (List.mem_filter.mpr ⟨hpmem, hpexp⟩)
  show regGet (cleanup_downloads downloads current_time) id = none
  unfold cleanup_downloads regGet
  have hnone : (((downloads.filter
      (fun q => decide (current_time - q.2.timestamp > FILE_EXPIRY_TIME))).map
      Prod.fst).foldl (fun d j => regPop d j) downloads).find?
      (fun q => q.1 == id) = none := by
    rw [List.find?_eq_none]
    intro x hx
    have hne := foldl_regPop_removes _ downloads id hidmem x hx
    simpa using hne
  rw [hnone]
  rfl

/-- C5 witness: a record created at time 0 is gone from the registry after
    a cycle run at time 1000. -/
theorem c5_expired_record_removed_witness :
    regGet (cleanup_cycle [] [("w5", jobW5)] 1000 (fun _ => true)).2 "w5" = none := by
  exact c5_expired_record_removed [] (fun _ => true) [("w5", jobW5)] 1000 "w5" jobW5
    rfl (by decide)

/-- C3: over every environment, the status write trace that a /download
    request performs for its job id is either empty (no job created, url
    missing) or the initial in-progress status, spelled downloading,
    followed by exactly one transition to completed or to error. This
    yields the claim: the status starts at in-progress at creation, each
    record undergoes at most one transition, to exactly one of completed
    and error, with no transition out of a terminal state and no re-entry
    to in-progress. -/
theorem c3_job_single_status_transition (url : Option String)
    (quality format_type download_id : String) (env : Env) (downloads : Registry) :
    statusHistory
        (download_video url quality format_type download_id env downloads).2.2
        download_id = []
    ∨ statusHistory
        (download_video url quality format_type download_id env downloads).2.2
        download_id = ["downloading", "completed"]
    ∨ statusHistory
        (download_video url quality format_type download_id env downloads).2.2
        download_id = ["downloading", "error"] := by
  obtain ⟨now, nowR, ex, dl, listing⟩ := env
  by_cases hu : (url.getD "" == "") = true
  · left
    simp [download_video, hu, statusHistory]
  · cases ex with
    | error msg =>
      right; right
      simp [download_video, hu, failDownload, statusHistory, initRecord]
    | ok info =>
      cases dl with
      | error msg =>
        right; right
        simp [download_video, hu, failDownload, statusHistory, initRecord]
      | ok u =>
        cases hf : find_downloaded_file listing
            (regSet downloads download_id (initRecord now (url.getD ""))) nowR with
        | some f =>
          right; left
          simp only [initRecord] at hf
          simp [download_video, hu, hf, statusHistory, initRecord]
        | none =>
          right; right
          simp only [initRecord] at hf
          simp [download_video, hu, hf, statusHistory, initRecord]

/-- C2: when the collaborator raises an exception during the orchestration
    (the metadata fetch or the download), the job record transitions to
    error with the exception message stored verbatim as its error detail,
    and the 500 failure response carries that same message, prefixed by the
    fixed phrase Download failed. -/
theorem c2_exception_transitions_to_error (u quality format_type download_id msg : String)
    (env : Env) (downloads : Registry)
    (hu : u ≠ "")
    (hfresh : regGet downloads download_id = none)
    (hexc : env.extractResult = Except.error msg ∨
      (∃ i, env.extractResult = Except.ok i ∧ env.downloadResult = Except.error msg)) :
    regGet (download_video (some u) quality format_type download_id env downloads).2.1
        download_id =
      some { status := "error", timestamp := env.now, url := u, filename := none,
             error := some msg }
    ∧ (download_video (some u) quality format_type download_id env downloads).1.code = 500
    ∧ (download_video (some u) quality format_type download_id env downloads).1.error =
      some ("Download failed: " ++ msg) := by
  have hcond : (u == "") = false := by simpa using hu
  have heval : download_video (some u) quality format_type download_id env downloads =
      failDownload download_id msg
        (regSet downloads download_id (initRecord env.now u))
        [RegEvent.insert download_id (initRecord env.now u)] := by
    rcases hexc with hx | ⟨i, hx, hd⟩
    · simp [download_video, hcond, hx]
    · simp [download_video, hcond, hx, hd]
  rw [heval]
  simp only [failDownload]
  refine ⟨?_, by trivial, by trivial⟩
  rw [regGet_two_updates downloads download_id _ _ _ hfresh]
  simp [initRecord]

/-- C2 witness: a metadata exception with the message boom yields an
    errored record storing boom and a 500 response carrying boom. -/
theorem c2_exception_transitions_to_error_witness :
    regGet (download_video (some "u") "best" "mp4" "w2" envBoom []).2.1 "w2" =
      some { status := "error", timestamp := 5, url := "u", filename := none,
             error := some "boom" }
    ∧ (download_video (some "u") "best" "mp4" "w2" envBoom []).1.code = 500
    ∧ (download_video (some "u") "best" "mp4" "w2" envBoom []).1.error =
      some ("Download failed: " ++ "boom") := by
  exact c2_exception_transitions_to_error "u" "best" "mp4" "w2" "boom" envBoom []
    (by decide) rfl (Or.inl rfl)

/-- C4 counterexample: when the metadata call raises an exception whose
    message is the empty string, the resulting record has status error
    while its error detail is the empty string, so a record in the error
    state fails to carry a non-empty error detail, refuting the claim as
    stated. -/
theorem c4_empty_error_detail_counterexample :
    regGet (download_video (some "u") "best" "mp4" "job4" envEmptyMsg []).2.1 "job4" =
      some { status := "error", timestamp := 0, url := "u", filename := none,
             error := some "" }
    ∧ ¬((∃ s, (some "" : Option String) = some s ∧ s ≠ "") ↔
        ("error" : String) = "error") := by
  constructor
  · decide
  · intro hiff
    obtain ⟨s, hs, hne⟩ := hiff.mpr rfl
    exact hne (Option.some.inj hs).symm

/-- C4 as amended: for every job record produced by the /download handler
    on a fresh id, the artifact filename is set (not None) exactly when the
    status is completed, the error detail is set (not None, though possibly
    an empty string copied from the exception) exactly when the status is
    error, and the record never has both set. -/
theorem c4_record_fields_match_status (url : Option String)
    (quality format_type download_id : String) (env : Env) (downloads : Registry)
    (hfresh : regGet downloads download_id = none) (r : JobRecord)
    (hr : regGet (download_video url quality format_type download_id env downloads).2.1
        download_id = some r) :
    (r.filename ≠ none ↔ r.status = "completed")
    ∧ (r.error ≠ none ↔ r.status = "error")
    ∧ ¬(r.filename ≠ none ∧ r.error ≠ none) := by
  obtain ⟨now, nowR, ex, dl, listing⟩ := env
  by_cases hu : (url.getD "" == "") = true
  · simp [download_video, hu] at hr
    rw [hfresh] at hr
    exact Option.noConfusion hr
  · cases ex with
    | error msg =>
      simp [download_video, hu, failDownload] at hr
      rw [regGet_two_updates downloads download_id _ _ _ hfresh] at hr
      obtain rfl := (Option.some.inj hr).symm
      simp [initRecord]
    | ok info =>
      cases dl with
      | error msg =>
        simp [download_video, hu, failDownload] at hr
        rw [regGet_two_updates downloads download_id _ _ _ hfresh] at hr
        obtain rfl := (Option.some.inj hr).symm
        simp [initRecord]
      | ok uu =>
        cases hf : find_downloaded_file listing
            (regSet downloads download_id (initRecord now (url.getD ""))) nowR with
        | some f =>
          simp [download_video, hu, hf] at hr
          rw [regGet_two_updates downloads download_id _ _ _ hfresh] at hr
          obtain rfl := (Option.some.inj hr).symm
          simp [initRecord]
        | none =>
          simp [download_video, hu, hf] at hr
          rw [regGet_two_updates downloads download_id _ _ _ hfresh] at hr
          obtain rfl := (Option.some.inj hr).symm
          simp [initRecord]

/-- C4 witness: the completed record of a successful run has its filename
    set, no error detail, and satisfies the amended equivalences. -/
theorem c4_record_fields_match_status_witness :
    (jobW4.filename ≠ none ↔ jobW4.status = "completed")
    ∧ (jobW4.error ≠ none ↔ jobW4.status = "error")
    ∧ ¬(jobW4.filename ≠ none ∧ jobW4.error ≠ none) := by
  exact c4_record_fields_match_status (some "u") "best" "mp4" "w4" envOneFile [] rfl
    jobW4 (by decide)

/-- C6 counterexample: at a run in which both collaborator calls succeed
    and no matching recent file exists, the stored error detail is the
    capitalized string Downloaded file not found, which is not the message
    quoted by the claim. -/
theorem c6_message_differs_from_claim :
    (regGet (download_video (some "u") "best" "mp4" "job6" envNoFile []).2.1
        "job6").map JobRecord.error = some (some "Downloaded file not found")
    ∧ ("Downloaded file not found" : String) ≠ "downloaded file not found" := by
  exact ⟨by decide, by decide⟩

/-- C6 as amended: when the download call succeeds but no matching recent
    file is found, the record transitions to error with the fixed message
    Downloaded file not found (capitalized, unlike the message quoted by
    the claim) and the request returns HTTP 500 with that same message. -/
theorem c6_resolution_failure_fixed_message (u quality format_type download_id : String)
    (env : Env) (downloads : Registry) (info : VideoMeta)
    (hu : u ≠ "")
    (hfresh : regGet downloads download_id = none)
    (hex : env.extractResult = Except.ok info)
    (hdl : env.downloadResult = Except.ok ())
    (hfind : find_downloaded_file env.dirListing
        (regSet downloads download_id (initRecord env.now u)) env.nowResolve = none) :
    regGet (download_video (some u) quality format_type download_id env downloads).2.1
        download_id =
      some { status := "error", timestamp := env.now, url := u, filename := none,
             error := some "Downloaded file not found" }
    ∧ (download_video (some u) quality format_type download_id env downloads).1.code = 500
    ∧ (download_video (some u) quality format_type download_id env downloads).1.error =
      some "Downloaded file not found" := by
  have hcond : (u == "") = false := by simpa using hu
  constructor
  · simp [download_video, hcond, hex, hdl, hfind]
    rw [regGet_two_updates downloads download_id _ _ _ hfresh]
    simp [initRecord]
  · constructor
    · simp [download_video, hcond, hex, hdl, hfind]
    · simp [download_video, hcond, hex, hdl, hfind]

/-- C6 witness: with an empty downloads directory, the record errors with
    the fixed capitalized message and the response is a 500 carrying it. -/
theorem c6_resolution_failure_fixed_message_witness :
    regGet (download_video (some "u") "best" "mp4" "w6" envNoFile []).2.1 "w6" =
      some { status := "error", timestamp := 0, url := "u", filename := none,
             error := some "Downloaded file not found" }
    ∧ (download_video (some "u") "best" "mp4" "w6" envNoFile []).1.code = 500
    ∧ (download_video (some "u") "best" "mp4" "w6" envNoFile []).1.error =
      some "Downloaded file not found" := by
  exact c6_resolution_failure_fixed_message "u" "best" "mp4" "w6" envNoFile []
    { title := some "T" } (by decide) rfl rfl rfl rfl

/-- C1: evaluation at the failing input. An earlier job jobOld already
    claims the file Video.mp4 in the registry, Video.mp4 is the only fresh
    file in the store, and the resolution step nevertheless associates
    Video.mp4 with the new job as well: the membership test at src/app.py
    line 307 compares the candidate filename string against whole record
    dicts, which never compare equal, so the claimed-file exclusion never
    excludes anything. -/
theorem c1_claimed_file_selected_again :
    (regGet (download_video (some "u1") "best" "mp4" "jobNew" envClaimed
        [("jobOld", priorJob)]).2.1 "jobNew").map JobRecord.filename
      = some (some "Video.mp4")
    ∧ priorJob.filename = some "Video.mp4" := by
  exact ⟨by decide, rfl⟩

end Ytdlcore
